import Mathlib

/-!
Verification of the live-data-stream core (app/transformer.py, app/poller.py,
app/fetcher.py) of the superbowl_LX repository, as a shallow embedding.

Python `dict[str, X]` values are modelled as insertion-ordered association
lists with unique keys: assignment `d[k] = v` replaces the value of an
existing key in place, otherwise appends at the end; lookup returns the
value stored for the key.  Python `float` values are modelled as rationals.
Raised exceptions are modelled with `Except` / `Option`.
-/

namespace SBLX

/-- Python dict assignment `d[k] = v`: replace the value at an existing key,
keeping its position, otherwise append the new binding at the end. -/
def dict_insert {κ α : Type} [DecidableEq κ] (m : List (κ × α)) (k : κ) (v : α) :
    List (κ × α) :=
  match m with
  | [] => [(k, v)]
  | p :: rest => if p.1 = k then (k, v) :: rest else p :: dict_insert rest k v

/-- Python dict lookup `d.get(k)` / `d[k]`: the value bound to `k`, if any. -/
def dict_lookup {κ α : Type} [DecidableEq κ] (m : List (κ × α)) (k : κ) : Option α :=
  match m with
  | [] => none
  | p :: rest => if p.1 = k then some p.2 else dict_lookup rest k

theorem dict_lookup_insert_self {κ α : Type} [DecidableEq κ]
    (m : List (κ × α)) (k : κ) (v : α) :
    dict_lookup (dict_insert m k v) k = some v := by
  induction m with
  | nil => simp [dict_insert, dict_lookup]
  | cons p rest ih =>
    by_cases h : p.1 = k
    · simp [dict_insert, dict_lookup, h]
    · simp [dict_insert, dict_lookup, h, ih]

theorem dict_lookup_insert_ne {κ α : Type} [DecidableEq κ]
    (m : List (κ × α)) (k k' : κ) (v : α) (h : k' ≠ k) :
    dict_lookup (dict_insert m k v) k' = dict_lookup m k' := by
  have hk : ¬k = k' := fun hh => h hh.symm
  induction m with
  | nil => simp [dict_insert, dict_lookup, hk]
  | cons p rest ih =>
    by_cases hp : p.1 = k
    · have hp' : ¬p.1 = k' := by rw [hp]; exact hk
      simp [dict_insert, dict_lookup, hp, hp', hk]
    · by_cases hq : p.1 = k'
      · simp only [dict_insert, if_neg hp]
        simp [dict_lookup, hq]
      · simp only [dict_insert, if_neg hp]
        simp [dict_lookup, hq, ih]

theorem dict_insert_keys_mono {κ α : Type} [DecidableEq κ]
    (m : List (κ × α)) (k k' : κ) (v : α) (h : k' ∈ m.map Prod.fst) :
    k' ∈ (dict_insert m k v).map Prod.fst := by
  induction m with
  | nil => simp at h
  | cons p rest ih =>
    by_cases hp : p.1 = k
    · subst hp
      simp only [List.map_cons, List.mem_cons] at h
      rcases h with h | h
      · simp [dict_insert, h]
      · simp [dict_insert, h]
    · simp only [List.map_cons, List.mem_cons] at h
      rcases h with h | h
      · simp [dict_insert, hp, h]
      · simp only [dict_insert, if_neg hp, List.map_cons, List.mem_cons]
        exact Or.inr (ih h)

/-- Models Python `int()` applied to a textual field: an optional sign
followed by one or more decimal digits parses to the signed value; anything
else raises `ValueError` (modelled as `.error ()`).  Surrounding whitespace
and underscore digit separators, which Python also accepts, are not modelled;
no claim depends on them. -/
def py_int (s : String) : Except Unit Int :=
  match s.toList with
  | [] => .error ()
  | c :: rest =>
    let digits := if c = '-' ∨ c = '+' then rest else c :: rest
    if !digits.isEmpty && digits.all Char.isDigit then
      let mag : Nat := digits.foldl (fun n d => 10 * n + (d.toNat - 48)) 0
      .ok (if c = '-' then -(mag : Int) else (mag : Int))
    else .error ()

/-! ## Source document model (the fields the code reads)

Raw ESPN documents are loosely structured JSON; the embedding gives each
document a structure holding exactly the fields the transformer, fetcher and
poller access.  A field read with `.get(key, default)` in Python is an
`Option` field here, read with `.getD`; a field indexed directly
(`event["id"]`) is a required field. -/

/-- The nested `team` object of a competitor: `id`, `displayName`,
`abbreviation`, each read with a default. -/
structure Team where
  id : Option String
  displayName : Option String
  abbreviation : Option String
deriving DecidableEq, Inhabited, Repr

/-- One entry of a competition's `competitors` array. -/
structure Competitor where
  homeAway : Option String
  score : Option String
  team : Option Team
deriving DecidableEq, Inhabited, Repr

/-- The `status.type` object: coded `name` and human `description`. -/
structure StatusType where
  name : Option String
  description : Option String
deriving DecidableEq, Inhabited, Repr

/-- The competition `status` object. -/
structure Status where
  type : Option StatusType
  period : Option Int
  displayClock : Option String
deriving DecidableEq, Inhabited, Repr

/-- One entry of `competitions` in a scoreboard event. -/
structure Competition where
  status : Option Status
  competitors : List Competitor
deriving DecidableEq, Inhabited, Repr

/-- One scoreboard event; `id` is indexed directly by the code, so it is
required. -/
structure ScoreboardEvent where
  id : String
  competitions : List Competition
deriving DecidableEq, Inhabited, Repr

/-- The scoreboard listing document (`scoreboard.get("events", [])`). -/
structure Scoreboard where
  events : List ScoreboardEvent
deriving DecidableEq, Inhabited, Repr

/-- One entry of a boxscore team's `statistics` array. -/
structure Stat where
  name : Option String
  displayValue : Option String
deriving DecidableEq, Inhabited, Repr

/-- One entry of `boxscore.teams` in the summary document. -/
structure BoxTeam where
  homeAway : Option String
  statistics : List Stat
deriving DecidableEq, Inhabited, Repr

/-- The `boxscore` object of the summary document. -/
structure Boxscore where
  teams : List BoxTeam
deriving DecidableEq, Inhabited, Repr

/-- The nested `start.team` object of a play. -/
structure StartTeam where
  id : Option String
deriving DecidableEq, Inhabited, Repr

/-- The `start` object of a play. -/
structure PlayStart where
  team : Option StartTeam
deriving DecidableEq, Inhabited, Repr

/-- The `period` object of a play. -/
structure PlayPeriod where
  number : Option Int
deriving DecidableEq, Inhabited, Repr

/-- The `clock` object of a play. -/
structure PlayClock where
  displayValue : Option String
deriving DecidableEq, Inhabited, Repr

/-- One play of a drive. -/
structure Play where
  id : Option String
  text : Option String
  period : Option PlayPeriod
  clock : Option PlayClock
  start : Option PlayStart
deriving DecidableEq, Inhabited, Repr

/-- One drive ("segment"): its ordered `plays` list. -/
structure Drive where
  plays : List Play
deriving DecidableEq, Inhabited, Repr

/-- The `drives` object of the summary: an optional `current` (live) drive
plus the list of `previous` drives. -/
structure Drives where
  current : Option Drive
  previous : List Drive
deriving DecidableEq, Inhabited, Repr

/-- One entry of the `winprobability` array. -/
structure WinProbEntry where
  playId : Option String
  homeWinPercentage : Option ℚ
deriving DecidableEq, Inhabited, Repr

/-- The per-game summary (detail) document. -/
structure Summary where
  boxscore : Option Boxscore
  drives : Option Drives
  winprobability : List WinProbEntry
deriving DecidableEq, Inhabited, Repr

/-! ## Output model (app/models.py) -/

/-- `TeamData` of app/models.py. -/
structure TeamData where
  id : String
  name : String
  score : Int
  stats : List (String × String)
deriving DecidableEq, Inhabited, Repr

/-- `GameData` of app/models.py. -/
structure GameData where
  game_id : String
  status : String
  quarter : Int
  clock : String
  home_team : TeamData
  away_team : TeamData
deriving DecidableEq, Inhabited, Repr

/-- `EventData` of app/models.py. -/
structure EventData where
  event_id : String
  type : String
  description : String
  quarter : Int
  clock : String
  possession : String
  win_probability : Option ℚ
deriving DecidableEq, Inhabited, Repr

/-- `ToonPayload` of app/models.py.  The wall-clock timestamp is modelled as
an abstract instant (a natural number supplied by the caller). -/
structure ToonPayload where
  type : String
  source : String
  timestamp : Nat
  game : GameData
  events : List EventData
deriving DecidableEq, Inhabited, Repr

/-- `Settings` of app/config.py (the fields the core reads).  Python floats
are modelled as rationals. -/
structure Settings where
  poll_interval_seconds : Int
  backoff_initial_seconds : ℚ
  backoff_multiplier : ℚ
  backoff_max_seconds : ℚ
  live_statuses : List String
  max_recent_plays : Nat
deriving DecidableEq, Inhabited, Repr

/-- The exceptions `transform_game` can raise, caught at the item boundary by
the poller.  `missingSide side` is the `ValueError` raised by
`_find_competitor` (the error the spec calls `MissingSideError`);
`badScore s` is the `ValueError` raised by `int()` on a non-numeric score
text `s`; `noCompetition` is the `IndexError` from `competitions[0]` on an
empty list. -/
inductive TransformErr where
  | noCompetition
  | missingSide (side : String)
  | badScore (score : String)
deriving DecidableEq, Repr

instance exceptDecEq {ε α : Type} [DecidableEq ε] [DecidableEq α] :
    DecidableEq (Except ε α)
  | .error a, .error b =>
    if h : a = b then .isTrue (by rw [h])
    else .isFalse (by intro hh; cases hh; exact h rfl)
  | .error _, .ok _ => .isFalse (by intro hh; cases hh)
  | .ok _, .error _ => .isFalse (by intro hh; cases hh)
  | .ok a, .ok b =>
    if h : a = b then .isTrue (by rw [h])
    else .isFalse (by intro hh; cases hh; exact h rfl)

/-! ## Transformer (app/transformer.py) -/

/-- `STAT_KEYS` of app/transformer.py: the fixed whitelist of stat names. -/
def STAT_KEYS : List String :=
  [ "totalYards", "netPassingYards", "rushingYards", "turnovers",
    "fumblesLost", "interceptions", "firstDowns", "thirdDownEff",
    "fourthDownEff", "totalPenaltiesYards", "possessionTime",
    "completionAttempts", "sacksYardsLost", "rushingAttempts",
    "passingFirstDowns", "rushingFirstDowns", "totalDrives" ]

/-- `_find_competitor`: the first competitor whose `homeAway` field equals
`side`; raises `ValueError` (`missingSide`) if there is none. -/
def find_competitor (competitors : List Competitor) (side : String) :
    Except TransformErr Competitor :=
  match competitors.find? (fun c => c.homeAway = some side) with
  | some c => .ok c
  | none => .error (.missingSide side)

/-- `_build_team_id_to_abbr`: map team id to abbreviation; entries whose id
or abbreviation is missing or empty (falsy) are skipped. -/
def build_team_id_to_abbr (competitors : List Competitor) :
    List (String × String) :=
  competitors.foldl
    (fun mapping comp =>
      let team := comp.team.getD default
      let team_id := team.id.getD ""
      let abbr := team.abbreviation.getD ""
      if team_id ≠ "" ∧ abbr ≠ "" then dict_insert mapping team_id abbr
      else mapping)
    []

/-- The body of the statistics loop in `_extract_team`: copy one statistics
entry into the stats mapping if (and only if) its name is in `STAT_KEYS`. -/
def stats_step (m : List (String × String)) (stat : Stat) :
    List (String × String) :=
  match stat.name with
  | some n =>
      if n ∈ STAT_KEYS then dict_insert m n (stat.displayValue.getD "") else m
  | none => m

/-- The statistics block of `_extract_team`: the first boxscore team whose
`homeAway` matches this side contributes its whitelisted statistics; no
match means empty stats. -/
def filter_stats (boxscore_teams : List BoxTeam) (side : String) :
    List (String × String) :=
  match boxscore_teams.find? (fun bt => bt.homeAway = some side) with
  | some bt => bt.statistics.foldl stats_step []
  | none => []

/-- `_extract_team`: locate this side's boxscore statistics by `homeAway`
label (first match), keep only whitelisted stat names, and parse the textual
score with `int()` — `competitor.get("score", "0")`, so a missing score
field parses the default text "0". -/
def extract_team (competitor : Competitor) (boxscore_teams : List BoxTeam) :
    Except TransformErr TeamData :=
  let team := competitor.team.getD default
  let side := competitor.homeAway.getD ""
  let stats := filter_stats boxscore_teams side
  let score_text := competitor.score.getD "0"
  match py_int score_text with
  | .ok sc =>
      .ok { id := team.id.getD "", name := team.displayName.getD "",
            score := sc, stats := stats }
  | .error _ => .error (.badScore score_text)

/-- The loop over previous drives in `_extract_plays`: walk the drives in
reversed order, appending each drive's plays reversed, and break as soon as
the accumulated count reaches `max_plays` (checked after each drive). -/
def accum_previous (acc : List Play) (drives_rev : List Drive) (max_plays : Nat) :
    List Play :=
  match drives_rev with
  | [] => acc
  | d :: rest =>
    let acc1 := acc ++ d.plays.reverse
    if max_plays ≤ acc1.length then acc1 else accum_previous acc1 rest max_plays

/-- `_extract_plays`: current drive's plays in their stored order, then
previous drives newest-first with each drive's plays reversed, truncated to
`max_plays` and reversed.  (The `team_id_to_abbr` parameter is unused, as in
the source.) -/
def extract_plays (summary : Summary) (team_id_to_abbr : List (String × String))
    (max_plays : Nat) : List Play :=
  let drives := summary.drives.getD default
  let raw_current :=
    match drives.current with
    | some d => d.plays
    | none => []
  let raw_plays := accum_previous raw_current drives.previous.reverse max_plays
  (raw_plays.take max_plays).reverse

/-- `_build_win_prob_lookup`: map play id to home win percentage; entries
with a falsy play id (missing or empty) or missing percentage are skipped. -/
def build_win_prob_lookup (summary : Summary) : List (String × ℚ) :=
  summary.winprobability.foldl
    (fun lookup entry =>
      match entry.playId, entry.homeWinPercentage with
      | some play_id, some pct =>
          if play_id ≠ "" then dict_insert lookup play_id pct else lookup
      | _, _ => lookup)
    []

/-- `_play_to_event`: build one `EventData` from a play. -/
def play_to_event (play : Play) (team_id_to_abbr : List (String × String))
    (win_prob_lookup : List (String × ℚ)) : EventData :=
  let play_id := play.id.getD ""
  let period := play.period.getD default
  let clock := play.clock.getD default
  let start := play.start.getD default
  let poss_team_id := (start.team.getD default).id.getD ""
  { event_id := play_id
    type := "play"
    description := play.text.getD ""
    quarter := period.number.getD 0
    clock := clock.displayValue.getD "0:00"
    possession := (dict_lookup team_id_to_abbr poss_team_id).getD ""
    win_probability := dict_lookup win_prob_lookup play_id }

/-- `transform_game`: transform a scoreboard event plus summary into a
`ToonPayload`.  Evaluation order of the fallible steps matches the source:
`competitions[0]`, find home, find away, extract home team, extract away
team.  `now` is the wall-clock instant of the call. -/
def transform_game (scoreboard_event : ScoreboardEvent) (summary : Summary)
    (settings : Settings) (now : Nat) : Except TransformErr ToonPayload :=
  match scoreboard_event.competitions with
  | [] => .error .noCompetition
  | competition :: _ =>
    let competitors := competition.competitors
    let status := competition.status.getD default
    let team_id_to_abbr := build_team_id_to_abbr competitors
    let boxscore_teams := (summary.boxscore.getD default).teams
    match find_competitor competitors "home" with
    | .error e => .error e
    | .ok home_comp =>
      match find_competitor competitors "away" with
      | .error e => .error e
      | .ok away_comp =>
        match extract_team home_comp boxscore_teams with
        | .error e => .error e
        | .ok home_team =>
          match extract_team away_comp boxscore_teams with
          | .error e => .error e
          | .ok away_team =>
            let game : GameData :=
              { game_id := scoreboard_event.id
                status := (status.type.getD default).description.getD ""
                quarter := status.period.getD 0
                clock := status.displayClock.getD "0:00"
                home_team := home_team
                away_team := away_team }
            let win_prob_lookup := build_win_prob_lookup summary
            let raw_plays :=
              extract_plays summary team_id_to_abbr settings.max_recent_plays
            let events :=
              raw_plays.map (fun p => play_to_event p team_id_to_abbr win_prob_lookup)
            .ok { type := "game_update", source := "espn_live",
                  timestamp := now, game := game, events := events }

/-! ## Fetcher (app/fetcher.py) -/

/-- `ESPNFetcher.extract_live_game_ids`: ids of events whose first
competition's `status.type.name` is one of the configured live statuses;
events with an empty `competitions` list are skipped. -/
def extract_live_game_ids (settings : Settings) (scoreboard : Scoreboard) :
    List String :=
  scoreboard.events.foldl
    (fun live_ids event =>
      match event.competitions with
      | [] => live_ids
      | comp :: _ =>
        let status_name :=
          ((comp.status.getD default).type.getD default).name.getD ""
        if status_name ∈ settings.live_statuses then live_ids ++ [event.id]
        else live_ids)
    []

/-! ## Poller (app/poller.py) -/

/-- The scheduler-owned state mutated by `Poller._do_poll`:
`_consecutive_failures` and `_latest_payloads`. -/
structure PollerState where
  consecutiveFailures : Nat
  latestPayloads : List (String × ToonPayload)
deriving DecidableEq, Inhabited, Repr

/-- The `events_by_id` lookup built at the start of a successful cycle. -/
def events_by_id (scoreboard : Scoreboard) : List (String × ScoreboardEvent) :=
  scoreboard.events.foldl (fun m event => dict_insert m event.id event) []

/-- The body of the per-item `try` block in `Poller._do_poll`: look up the
scoreboard event, fetch the game summary, transform, store the payload in
`latest`, then upsert.  Every failure (lookup `KeyError`, detail fetch,
transform, upsert) is caught at the item boundary and only logged; note the
payload is written to `latest` before the upsert runs, so an upsert failure
does not undo the write. -/
def process_item (ev_by_id : List (String × ScoreboardEvent))
    (fetch_summary : String → Except Unit Summary)
    (upsert : ToonPayload → Except Unit Unit)
    (settings : Settings) (now : Nat)
    (latest : List (String × ToonPayload)) (game_id : String) :
    List (String × ToonPayload) :=
  match dict_lookup ev_by_id game_id with
  | none => latest
  | some sb_event =>
    match fetch_summary game_id with
    | .error _ => latest
    | .ok summary =>
      match transform_game sb_event summary settings now with
      | .error _ => latest
      | .ok payload =>
        let latest1 := dict_insert latest game_id payload
        let _ := upsert payload
        latest1

/-- The result an item contributes if its own pipeline (event lookup, detail
fetch, transform) succeeds; `none` when any of those steps fails. -/
def item_payload (ev_by_id : List (String × ScoreboardEvent))
    (fetch_summary : String → Except Unit Summary)
    (settings : Settings) (now : Nat) (game_id : String) : Option ToonPayload :=
  match dict_lookup ev_by_id game_id with
  | none => none
  | some sb_event =>
    match fetch_summary game_id with
    | .error _ => none
    | .ok summary =>
      match transform_game sb_event summary settings now with
      | .error _ => none
      | .ok payload => some payload

/-- `Poller._do_poll`, one cycle: if the listing fetch raises, increment the
failure counter and leave `latestPayloads` untouched; otherwise process the
live items (each inside its own item-level handler) and reset the counter to
zero.  An empty live list resets the counter and returns early.  The fetch
ports and the store port are passed as functions; `now` is the wall clock of
the cycle. -/
def do_poll (fetch_scoreboard : Except Unit Scoreboard)
    (fetch_summary : String → Except Unit Summary)
    (upsert : ToonPayload → Except Unit Unit)
    (settings : Settings) (now : Nat) (s : PollerState) : PollerState :=
  match fetch_scoreboard with
  | .error _ => { s with consecutiveFailures := s.consecutiveFailures + 1 }
  | .ok scoreboard =>
    let live_ids := extract_live_game_ids settings scoreboard
    if live_ids.isEmpty then { s with consecutiveFailures := 0 }
    else
      let ev_by_id := events_by_id scoreboard
      let latest :=
        live_ids.foldl (process_item ev_by_id fetch_summary upsert settings now)
          s.latestPayloads
      { consecutiveFailures := 0, latestPayloads := latest }

/-- `Poller._get_delay`: the base poll interval when the failure counter is
zero, else exponential backoff clamped at the ceiling. -/
def get_delay (settings : Settings) (consecutive_failures : Nat) : ℚ :=
  if consecutive_failures = 0 then (settings.poll_interval_seconds : ℚ)
  else
    min (settings.backoff_initial_seconds *
          settings.backoff_multiplier ^ consecutive_failures)
      settings.backoff_max_seconds

/-! ## Reference semantics of `Poller.latest_payloads` (claim C4)

`Poller.latest_payloads` returns `dict(self._latest_payloads)`.  To reason
about aliasing, Python object identity is made explicit: payload objects
live in a heap addressed by `Nat`, and both the scheduler's `_latest_payloads`
dict and a reader's dict hold references (addresses), as Python dicts of
objects do.  `dict(...)` builds a fresh dict containing the same references.
`ToonPayload` is a pydantic `BaseModel` without `frozen=True` (app/models.py),
so the pointed-to objects are mutable in place: `heap_write` models assigning
to a field of a payload object reached through a reference. -/

structure AliasWorld where
  heap : List (Nat × ToonPayload)
  poller_dict : List (String × Nat)
  reader_dict : List (String × Nat)
deriving DecidableEq, Repr

/-- A reader calls `Poller.latest_payloads`: its variable now holds a fresh
dict with the same key-to-reference bindings (`dict(self._latest_payloads)`). -/
def latest_payloads_read (w : AliasWorld) : AliasWorld :=
  { w with reader_dict := w.poller_dict }

/-- The reader mutates the key structure of its returned dict
(`snapshot[k] = ref`). -/
def reader_dict_set (w : AliasWorld) (k : String) (a : Nat) : AliasWorld :=
  { w with reader_dict := dict_insert w.reader_dict k a }

/-- The reader deletes a key from its returned dict (`del snapshot[k]`). -/
def reader_dict_del (w : AliasWorld) (k : String) : AliasWorld :=
  { w with reader_dict := w.reader_dict.filter (fun p => ¬p.1 = k) }

/-- In-place mutation of the payload object at address `a` (e.g. assigning
to a field of a payload obtained from the returned dict). -/
def heap_write (w : AliasWorld) (a : Nat) (p : ToonPayload) : AliasWorld :=
  { w with heap := dict_insert w.heap a p }

/-- What the scheduler's internal `_latest_payloads` denotes: each item id
with the payload object its stored reference points at. -/
def internal_records (w : AliasWorld) : List (String × Option ToonPayload) :=
  w.poller_dict.map (fun kv => (kv.1, dict_lookup w.heap kv.2))

/-! ## Observation helpers and concrete test data -/

/-- The home/away side assignment of a transform result. -/
def home_away_of (r : Except TransformErr ToonPayload) :
    Except TransformErr (TeamData × TeamData) :=
  match r with
  | .error e => .error e
  | .ok p => .ok (p.game.home_team, p.game.away_team)

/-- The id of the team assigned to the home side, when the transform
succeeded. -/
def home_id_of (r : Except TransformErr ToonPayload) : Option String :=
  match r with
  | .error _ => none
  | .ok p => some p.game.home_team.id

/-- Settings with the defaults of app/config.py. -/
def default_test_settings : Settings :=
  { poll_interval_seconds := 60
    backoff_initial_seconds := 5
    backoff_multiplier := 2
    backoff_max_seconds := 300
    live_statuses := ["STATUS_IN_PROGRESS", "STATUS_HALFTIME", "STATUS_END_PERIOD"]
    max_recent_plays := 10 }

/-- A summary with no boxscore, no drives and no win probabilities. -/
def empty_summary : Summary :=
  { boxscore := none, drives := none, winprobability := [] }

/-- The chronologically first (older) play of a two-play current drive. -/
def play_old : Play :=
  { id := some "1", text := some "first play", period := some ⟨some 1⟩,
    clock := some ⟨some "10:00"⟩, start := none }

/-- The chronologically second (more recent) play of a two-play current
drive. -/
def play_new : Play :=
  { id := some "2", text := some "second play", period := some ⟨some 1⟩,
    clock := some ⟨some "9:30"⟩, start := none }

/-- A summary whose only plays are the two plays of the current (live)
drive, stored oldest first as in the feed; there are no previous drives. -/
def summary_current_two_plays : Summary :=
  { boxscore := none
    drives := some { current := some ⟨[play_old, play_new]⟩, previous := [] }
    winprobability := [] }

/-- A home competitor whose `score` field is absent. -/
def competitor_no_score : Competitor :=
  { homeAway := some "home", score := none, team := none }

/-- A home competitor whose `score` field holds non-numeric text. -/
def competitor_bad_score : Competitor :=
  { homeAway := some "home", score := some "abc", team := none }

def team_one : Team :=
  { id := some "1", displayName := some "Team One", abbreviation := some "T1" }

def team_two : Team :=
  { id := some "2", displayName := some "Team Two", abbreviation := some "T2" }

def team_three : Team :=
  { id := some "3", displayName := some "Team Three", abbreviation := some "T3" }

def comp_home_one : Competitor :=
  { homeAway := some "home", score := some "0", team := some team_one }

def comp_home_two : Competitor :=
  { homeAway := some "home", score := some "0", team := some team_two }

def comp_away_three : Competitor :=
  { homeAway := some "away", score := some "0", team := some team_three }

/-- A scoreboard event with the given competitor list and no status. -/
def event_with (cs : List Competitor) : ScoreboardEvent :=
  { id := "401", competitions := [{ status := none, competitors := cs }] }

/-- A competitor mirroring the home side of the repository's test fixture. -/
def competitor_home_kc : Competitor :=
  { homeAway := some "home", score := some "21",
    team := some { id := some "12", displayName := some "Kansas City Chiefs",
                   abbreviation := some "KC" } }

/-- A boxscore team list whose home statistics mix a whitelisted stat name
with an unknown one. -/
def box_teams_mixed : List BoxTeam :=
  [ { homeAway := some "home",
      statistics := [ ⟨some "totalYards", some "310"⟩,
                      ⟨some "bogusStat", some "999"⟩ ] } ]

/-- An in-progress status as in the repository's test fixture. -/
def live_status : Status :=
  { type := some { name := some "STATUS_IN_PROGRESS",
                   description := some "In Progress" }
    period := some 3, displayClock := some "7:23" }

def event_a : ScoreboardEvent :=
  { id := "A",
    competitions := [{ status := some live_status,
                       competitors := [comp_home_one, comp_away_three] }] }

def event_b : ScoreboardEvent :=
  { id := "B",
    competitions := [{ status := some live_status,
                       competitors := [comp_home_one, comp_away_three] }] }

/-- A listing with two live games, "A" and "B". -/
def sb_two_live : Scoreboard := { events := [event_a, event_b] }

/-- A detail fetch port that raises for game "B" and succeeds otherwise. -/
def summary_fetch_b_fails : String → Except Unit Summary :=
  fun game_id => if game_id = "B" then .error () else .ok empty_summary

/-- A store port whose upserts always succeed. -/
def upsert_ok : ToonPayload → Except Unit Unit := fun _ => .ok ()

/-- The payload `transform_game` produces for `event_a` with
`empty_summary`, the default settings and instant 0. -/
def payload_a : ToonPayload :=
  { type := "game_update", source := "espn_live", timestamp := 0,
    game := { game_id := "A", status := "In Progress", quarter := 3,
              clock := "7:23",
              home_team := { id := "1", name := "Team One", score := 0, stats := [] },
              away_team := { id := "3", name := "Team Three", score := 0, stats := [] } },
    events := [] }

/-- `payload_a` after an in-place field assignment (`pydantic` models are
mutable), e.g. setting the game status. -/
def payload_a_mutated : ToonPayload :=
  { payload_a with game := { payload_a.game with status := "Mutated" } }

/-- An alias world where the scheduler holds one record, for game "g",
whose payload object lives at heap address 0. -/
def world0 : AliasWorld :=
  { heap := [(0, payload_a)], poller_dict := [("g", 0)], reader_dict := [] }

/-! ## Helper lemmas -/

/-- Every binding of `dict_insert m k v` is either the new binding or one of
the old ones. -/
theorem mem_dict_insert {κ α : Type} [DecidableEq κ]
    (m : List (κ × α)) (k : κ) (v : α) (kv : κ × α)
    (h : kv ∈ dict_insert m k v) : kv = (k, v) ∨ kv ∈ m := by
  induction m with
  | nil =>
    simp only [dict_insert, List.mem_singleton] at h
    exact Or.inl h
  | cons p rest ih =>
    by_cases hp : p.1 = k
    · simp only [dict_insert, if_pos hp, List.mem_cons] at h
      rcases h with h | h
      · exact Or.inl h
      · exact Or.inr (List.mem_cons_of_mem _ h)
    · simp only [dict_insert, if_neg hp, List.mem_cons] at h
      rcases h with h | h
      · exact Or.inr (h ▸ List.mem_cons_self _ _)
      · rcases ih h with h | h
        · exact Or.inl h
        · exact Or.inr (List.mem_cons_of_mem _ h)

/-- `stats_step` only ever adds whitelisted keys. -/
theorem stats_step_whitelisted (m : List (String × String)) (stat : Stat)
    (hm : ∀ kv ∈ m, kv.1 ∈ STAT_KEYS) :
    ∀ kv ∈ stats_step m stat, kv.1 ∈ STAT_KEYS := by
  intro kv hkv
  cases hname : stat.name with
  | none =>
    simp only [stats_step, hname] at hkv
    exact hm kv hkv
  | some n =>
    by_cases hwl : n ∈ STAT_KEYS
    · simp only [stats_step, hname, if_pos hwl] at hkv
      rcases mem_dict_insert _ _ _ _ hkv with h | h
      · rw [h]; exact hwl
      · exact hm kv h
    · simp only [stats_step, hname, if_neg hwl] at hkv
      exact hm kv hkv

/-- The statistics fold keeps the whitelist invariant. -/
theorem stats_fold_whitelisted (stats : List Stat) :
    ∀ (init : List (String × String)), (∀ kv ∈ init, kv.1 ∈ STAT_KEYS) →
      ∀ kv ∈ stats.foldl stats_step init, kv.1 ∈ STAT_KEYS := by
  induction stats with
  | nil => intro init hinit kv hkv; exact hinit kv hkv
  | cons st rest ih =>
    intro init hinit kv hkv
    exact ih _ (stats_step_whitelisted _ _ hinit) kv hkv

/-- `filter_stats` produces only whitelisted keys. -/
theorem filter_stats_whitelisted (boxscore_teams : List BoxTeam) (side : String) :
    ∀ kv ∈ filter_stats boxscore_teams side, kv.1 ∈ STAT_KEYS := by
  intro kv hkv
  unfold filter_stats at hkv
  cases hfind : boxscore_teams.find? (fun bt => bt.homeAway = some side) with
  | none => rw [hfind] at hkv; cases hkv
  | some bt =>
    rw [hfind] at hkv
    exact stats_fold_whitelisted _ _ (by intro kv' hkv'; cases hkv') kv hkv

/-- `find?` is invariant under permutation when at most one element
satisfies the predicate. -/
theorem find?_perm_of_countP_le_one {α : Type} (p : α → Bool) {l l' : List α}
    (hperm : l.Perm l') :
    l.countP p ≤ 1 → l.find? p = l'.find? p := by
  induction hperm with
  | nil => intro _; rfl
  | cons a h ih =>
    intro hcount
    by_cases hpa : p a
    · rw [List.find?_cons_of_pos _ hpa, List.find?_cons_of_pos _ hpa]
    · rw [List.find?_cons_of_neg _ hpa, List.find?_cons_of_neg _ hpa]
      apply ih
      rw [List.countP_cons, if_neg hpa] at hcount
      simpa using hcount
  | swap a b l =>
    intro hcount
    by_cases hpa : p a <;> by_cases hpb : p b
    · exfalso
      rw [List.countP_cons, List.countP_cons, if_pos hpa, if_pos hpb] at hcount
      omega
    · rw [List.find?_cons_of_neg _ hpb, List.find?_cons_of_pos _ hpa,
          List.find?_cons_of_pos _ hpa]
    · rw [List.find?_cons_of_pos _ hpb, List.find?_cons_of_neg _ hpa,
          List.find?_cons_of_pos _ hpb]
    · rw [List.find?_cons_of_neg _ hpb, List.find?_cons_of_neg _ hpa,
          List.find?_cons_of_neg _ hpa, List.find?_cons_of_neg _ hpb]
  | trans h1 h2 ih1 ih2 =>
    intro hcount
    rw [ih1 hcount, ih2 (by rw [← h1.countP_eq p]; exact hcount)]

/-- `process_item` in terms of the item's own pipeline result. -/
theorem process_item_eq (ev_by_id : List (String × ScoreboardEvent))
    (fetch_summary : String → Except Unit Summary)
    (upsert : ToonPayload → Except Unit Unit)
    (settings : Settings) (now : Nat)
    (latest : List (String × ToonPayload)) (game_id : String) :
    process_item ev_by_id fetch_summary upsert settings now latest game_id =
      match item_payload ev_by_id fetch_summary settings now game_id with
      | none => latest
      | some p => dict_insert latest game_id p := by
  cases h1 : dict_lookup ev_by_id game_id with
  | none => simp [process_item, item_payload, h1]
  | some ev =>
    cases h2 : fetch_summary game_id with
    | error e => simp [process_item, item_payload, h1, h2]
    | ok summ =>
      cases h3 : transform_game ev summ settings now with
      | error e => simp [process_item, item_payload, h1, h2, h3]
      | ok p => simp [process_item, item_payload, h1, h2, h3]

/-- Once an item's payload is recorded, later items of the same cycle leave
it in place (they can only rewrite their own key, and the item's own key
always carries the same pipeline result). -/
theorem fold_process_keeps (ev_by_id : List (String × ScoreboardEvent))
    (fetch_summary : String → Except Unit Summary)
    (upsert : ToonPayload → Except Unit Unit)
    (settings : Settings) (now : Nat) (g : String) (pg : ToonPayload)
    (hg : item_payload ev_by_id fetch_summary settings now g = some pg) :
    ∀ (ids : List String) (latest : List (String × ToonPayload)),
      dict_lookup latest g = some pg →
      dict_lookup
        (ids.foldl (process_item ev_by_id fetch_summary upsert settings now) latest)
        g = some pg := by
  intro ids
  induction ids with
  | nil => intro latest h; simpa using h
  | cons a rest ih =>
    intro latest h
    simp only [List.foldl_cons]
    apply ih
    rw [process_item_eq]
    by_cases ha : a = g
    · subst ha
      rw [hg]
      exact dict_lookup_insert_self _ _ _
    · cases hip : item_payload ev_by_id fetch_summary settings now a with
      | none => simpa using h
      | some p =>
        simp only
        rw [dict_lookup_insert_ne _ _ _ _ (fun hh => ha hh.symm)]
        exact h

/-- An item whose own pipeline succeeds ends the cycle recorded in the
latest-payloads mapping. -/
theorem fold_process_populates (ev_by_id : List (String × ScoreboardEvent))
    (fetch_summary : String → Except Unit Summary)
    (upsert : ToonPayload → Except Unit Unit)
    (settings : Settings) (now : Nat) (g : String) (pg : ToonPayload)
    (hg : item_payload ev_by_id fetch_summary settings now g = some pg) :
    ∀ (ids : List String) (latest : List (String × ToonPayload)), g ∈ ids →
      dict_lookup
        (ids.foldl (process_item ev_by_id fetch_summary upsert settings now) latest)
        g = some pg := by
  intro ids
  induction ids with
  | nil => intro latest h; cases h
  | cons a rest ih =>
    intro latest hmem
    simp only [List.foldl_cons]
    by_cases ha : a = g
    · subst ha
      apply fold_process_keeps _ _ _ _ _ _ _ hg
      rw [process_item_eq, hg]
      exact dict_lookup_insert_self _ _ _
    · rcases List.mem_cons.mp hmem with h | h
      · exact absurd h.symm ha
      · exact ih _ h

/-- `process_item` never removes a key from the latest-payloads mapping. -/
theorem process_item_keys_mono (ev_by_id : List (String × ScoreboardEvent))
    (fetch_summary : String → Except Unit Summary)
    (upsert : ToonPayload → Except Unit Unit)
    (settings : Settings) (now : Nat)
    (latest : List (String × ToonPayload)) (game_id : String) (k : String)
    (h : k ∈ latest.map Prod.fst) :
    k ∈ (process_item ev_by_id fetch_summary upsert settings now latest game_id).map
        Prod.fst := by
  rw [process_item_eq]
  cases item_payload ev_by_id fetch_summary settings now game_id with
  | none => exact h
  | some p => exact dict_insert_keys_mono _ _ _ _ h

/-- The per-item fold of a cycle never removes a key. -/
theorem fold_process_keys_mono (ev_by_id : List (String × ScoreboardEvent))
    (fetch_summary : String → Except Unit Summary)
    (upsert : ToonPayload → Except Unit Unit)
    (settings : Settings) (now : Nat) (k : String) :
    ∀ (ids : List String) (latest : List (String × ToonPayload)),
      k ∈ latest.map Prod.fst →
      k ∈ ((ids.foldl (process_item ev_by_id fetch_summary upsert settings now)
              latest).map Prod.fst) := by
  intro ids
  induction ids with
  | nil => intro latest h; simpa using h
  | cons a rest ih =>
    intro latest h
    simp only [List.foldl_cons]
    exact ih _ (process_item_keys_mono _ _ _ _ _ _ _ _ h)

/-! ## Claim theorems -/

/-- C1: the claim states that `_extract_plays` returns the most recent plays
ordered oldest to newest.  The code appends the current segment's plays in
their stored (oldest-first) order but then slices and reverses the
accumulator as if it were newest-first, so on a summary whose current drive
holds the plays `[play_old, play_new]` it returns them newest-first
(`[play_new, play_old]` instead of `[play_old, play_new]`), and with
`max_plays = 1` it keeps the oldest play instead of the most recent one. -/
theorem extract_plays_drops_recent_current_plays :
    extract_plays summary_current_two_plays [] 5 = [play_new, play_old] ∧
    extract_plays summary_current_two_plays [] 1 = [play_old] ∧
    play_old ≠ play_new :=
  ⟨by decide, by decide, by decide⟩

/-- C2 counterexample: a competitor whose `score` field is absent does not
raise — `_extract_team` silently substitutes 0 (via the `.get("score", "0")`
default), contradicting the claim that a missing score is a fatal per-item
error. -/
theorem extract_team_missing_score_silently_zero_cex :
    extract_team competitor_no_score [] =
      .ok { id := "", name := "", score := 0, stats := [] } := by
  decide

/-- C2 (amended): if the side's score field is present but non-numeric,
`_extract_team` raises a fatal per-item construction error; if the field is
missing entirely, it silently substitutes 0. -/
theorem extract_team_score_policy (competitor : Competitor)
    (boxscore_teams : List BoxTeam) :
    (∀ s, competitor.score = some s → py_int s = .error () →
        extract_team competitor boxscore_teams = .error (.badScore s)) ∧
    (competitor.score = none →
        ∃ td, extract_team competitor boxscore_teams = .ok td ∧ td.score = 0) := by
  constructor
  · intro s hs herr
    simp only [extract_team, hs, Option.getD_some, herr]
  · intro hnone
    simp only [extract_team, hnone, Option.getD_none]
    exact ⟨_, rfl, rfl⟩

/-- C2 witness: the amended policy at concrete inputs — a non-numeric score
text "abc" is a fatal error, a missing score field yields score 0. -/
theorem extract_team_score_policy_witness :
    extract_team competitor_bad_score [] = .error (.badScore "abc") ∧
    ∃ td, extract_team competitor_no_score [] = .ok td ∧ td.score = 0 :=
  ⟨(extract_team_score_policy competitor_bad_score []).1 "abc" rfl (by decide),
   (extract_team_score_policy competitor_no_score []).2 rfl⟩

/-- C3: a cycle whose listing fetch raises increments the consecutive
failure counter by exactly one and leaves the latest-payloads mapping (the
whole state otherwise) unmodified; a cycle whose listing fetch succeeds
ends with the counter reset to 0, whatever the per-item detail fetch,
transform and persist ports do. -/
theorem do_poll_failure_counter_semantics
    (fetch_summary : String → Except Unit Summary)
    (upsert : ToonPayload → Except Unit Unit)
    (settings : Settings) (now : Nat) (s : PollerState) :
    (∀ e : Unit,
        do_poll (.error e) fetch_summary upsert settings now s =
          { s with consecutiveFailures := s.consecutiveFailures + 1 }) ∧
    (∀ scoreboard : Scoreboard,
        (do_poll (.ok scoreboard) fetch_summary upsert settings now s).consecutiveFailures
          = 0) := by
  constructor
  · intro e; rfl
  · intro scoreboard
    simp only [do_poll]
    by_cases he : (extract_live_game_ids settings scoreboard).isEmpty
    · simp [he]
    · simp [he]

/-- C4 counterexample: `latest_payloads` returns a shallow copy, so the
returned dict holds references to the very payload objects the scheduler
holds; mutating such an object in place through the returned value (pydantic
models are not frozen) changes the record seen through the scheduler's
internal `latest_by_item_id`, contradicting the claim that no mutation
through the returned value can affect the scheduler's records. -/
theorem latest_payloads_shared_records_cex :
    dict_lookup (latest_payloads_read world0).reader_dict "g" = some 0 ∧
    (heap_write (latest_payloads_read world0) 0 payload_a_mutated).poller_dict
      = world0.poller_dict ∧
    internal_records (heap_write (latest_payloads_read world0) 0 payload_a_mutated)
      ≠ internal_records world0 :=
  ⟨by decide, by decide, by decide⟩

/-- C4 (amended): `latest_payloads` returns a point-in-time shallow copy of
the mapping — mutations of the returned dict's key structure (adding,
replacing or deleting entries) never affect the scheduler's internal
mapping or the records it denotes — but the payload objects themselves are
shared references, not deep copies. -/
theorem latest_payloads_dict_level_isolation (w : AliasWorld) (k : String)
    (a : Nat) :
    (latest_payloads_read w).reader_dict = w.poller_dict ∧
    (reader_dict_set (latest_payloads_read w) k a).poller_dict = w.poller_dict ∧
    internal_records (reader_dict_set (latest_payloads_read w) k a)
      = internal_records w ∧
    (reader_dict_del (latest_payloads_read w) k).poller_dict = w.poller_dict ∧
    internal_records (reader_dict_del (latest_payloads_read w) k)
      = internal_records w :=
  ⟨rfl, rfl, rfl, rfl, rfl⟩

/-- C5: with zero consecutive failures the inter-cycle delay is the base
poll interval; with `n ≠ 0` failures it is
`min(initial * multiplier ^ n, max)`, and in particular it is clamped at
the configured ceiling as soon as the exponential reaches it. -/
theorem get_delay_backoff_formula (settings : Settings) (n : Nat) :
    (n = 0 → get_delay settings n = (settings.poll_interval_seconds : ℚ)) ∧
    (n ≠ 0 → get_delay settings n =
        min (settings.backoff_initial_seconds * settings.backoff_multiplier ^ n)
          settings.backoff_max_seconds) ∧
    (n ≠ 0 → settings.backoff_max_seconds ≤
        settings.backoff_initial_seconds * settings.backoff_multiplier ^ n →
      get_delay settings n = settings.backoff_max_seconds) := by
  refine ⟨fun h => ?_, fun h => ?_, fun h hle => ?_⟩
  · simp [get_delay, h]
  · simp [get_delay, h]
  · simp [get_delay, h, min_eq_right hle]

/-- C5 witness: with the configured defaults (base 60, initial 5,
multiplier 2, ceiling 300) the delay is 60 at count 0 and clamped to 300 at
count 7. -/
theorem get_delay_backoff_formula_witness :
    get_delay default_test_settings 0 = 60 ∧
    get_delay default_test_settings 7 = 300 := by
  constructor
  · have h := (get_delay_backoff_formula default_test_settings 0).1 rfl
    rw [h]; norm_num [default_test_settings]
  · have h := (get_delay_backoff_formula default_test_settings 7).2.2
      (by norm_num) (by norm_num [default_test_settings])
    rw [h]
    rfl

/-- C6: in a successful cycle, an item whose own pipeline succeeds is
recorded in the latest-payloads mapping even when another live item's
detail fetch raises — the failure is caught at the item boundary and does
not affect the remaining items. -/
theorem do_poll_isolates_item_failure
    (fetch_summary : String → Except Unit Summary)
    (upsert : ToonPayload → Except Unit Unit)
    (settings : Settings) (now : Nat) (s : PollerState) (scoreboard : Scoreboard)
    (failing_id ok_id : String) (pg : ToonPayload)
    (hfail_mem : failing_id ∈ extract_live_game_ids settings scoreboard)
    (hfail : fetch_summary failing_id = .error ())
    (hok_mem : ok_id ∈ extract_live_game_ids settings scoreboard)
    (hne : ok_id ≠ failing_id)
    (hok : item_payload (events_by_id scoreboard) fetch_summary settings now ok_id
        = some pg) :
    dict_lookup
      (do_poll (.ok scoreboard) fetch_summary upsert settings now s).latestPayloads
      ok_id = some pg := by
  have hne' : ¬(extract_live_game_ids settings scoreboard).isEmpty = true := by
    cases hl : extract_live_game_ids settings scoreboard with
    | nil => rw [hl] at hok_mem; cases hok_mem
    | cons x xs => simp [List.isEmpty]
  simp only [do_poll, if_neg hne']
  exact fold_process_populates _ _ _ _ _ _ _ hok _ _ hok_mem

/-- C6 witness: two live games "A" and "B"; the detail fetch for "B"
raises, yet "A" ends the cycle recorded with its transformed payload. -/
theorem do_poll_isolates_item_failure_witness :
    dict_lookup
      (do_poll (.ok sb_two_live) summary_fetch_b_fails upsert_ok
        default_test_settings 0 ⟨0, []⟩).latestPayloads
      "A" = some payload_a :=
  do_poll_isolates_item_failure summary_fetch_b_fails upsert_ok
    default_test_settings 0 ⟨0, []⟩ sb_two_live "B" "A" payload_a
    (by decide) (by decide) (by decide) (by decide) (by decide)

/-- C7 counterexample: when two competitors both carry the label "home",
`_find_competitor` takes the first in array order, so permuting the
competitor list changes which team is assigned to the home side (team id
"1" versus "2"), refuting the claim for arbitrary permutations. -/
theorem transform_game_side_permutation_cex :
    home_id_of
      (transform_game (event_with [comp_home_one, comp_home_two, comp_away_three])
        empty_summary default_test_settings 0) = some "1" ∧
    home_id_of
      (transform_game (event_with [comp_home_two, comp_home_one, comp_away_three])
        empty_summary default_test_settings 0) = some "2" :=
  ⟨by decide, by decide⟩

/-- C7 (amended): provided each side label occurs at most once in the
competitor list, permuting the list leaves the transformer's home/away
assignment (and the error it raises, if any) unchanged: side resolution is
by the `homeAway` label, not by array position. -/
theorem transform_game_side_order_independent
    (gid : String) (stat : Option Status) (cs cs' : List Competitor)
    (rest : List Competition) (summary : Summary) (settings : Settings)
    (now : Nat)
    (hperm : cs.Perm cs')
    (hhome : cs.countP (fun c => c.homeAway = some "home") ≤ 1)
    (haway : cs.countP (fun c => c.homeAway = some "away") ≤ 1) :
    home_away_of (transform_game ⟨gid, ⟨stat, cs⟩ :: rest⟩ summary settings now) =
      home_away_of (transform_game ⟨gid, ⟨stat, cs'⟩ :: rest⟩ summary settings now) := by
  have hh : find_competitor cs "home" = find_competitor cs' "home" := by
    unfold find_competitor
    rw [find?_perm_of_countP_le_one _ hperm hhome]
  have ha : find_competitor cs "away" = find_competitor cs' "away" := by
    unfold find_competitor
    rw [find?_perm_of_countP_le_one _ hperm haway]
  simp only [transform_game]
  rw [hh, ha]
  repeat' split
  all_goals rfl

/-- C7 witness: reversing a well-formed two-competitor list (one "home",
one "away") leaves the home/away assignment unchanged. -/
theorem transform_game_side_order_independent_witness :
    home_away_of
      (transform_game (event_with [comp_home_one, comp_away_three])
        empty_summary default_test_settings 0) =
      home_away_of
        (transform_game (event_with [comp_away_three, comp_home_one])
          empty_summary default_test_settings 0) :=
  transform_game_side_order_independent "401" none
    [comp_home_one, comp_away_three] [comp_away_three, comp_home_one] []
    empty_summary default_test_settings 0
    (List.Perm.swap comp_away_three comp_home_one [])
    (by decide) (by decide)

/-- C8: an input whose competitor list has no entry labeled "home" fails
with the missing-side error for "home"; one that has a "home" entry but no
entry labeled "away" fails with the missing-side error for "away" — the
transformer produces no record and assumes neither array order nor a fixed
count of two. -/
theorem transform_game_missing_side_fails
    (e : ScoreboardEvent) (summary : Summary) (settings : Settings) (now : Nat)
    (competition : Competition) (rest : List Competition)
    (hc : e.competitions = competition :: rest) :
    ((∀ c ∈ competition.competitors, ¬c.homeAway = some "home") →
        transform_game e summary settings now = .error (.missingSide "home")) ∧
    ((∃ c ∈ competition.competitors, c.homeAway = some "home") →
      (∀ c ∈ competition.competitors, ¬c.homeAway = some "away") →
        transform_game e summary settings now = .error (.missingSide "away")) := by
  constructor
  · intro hnone
    have hfind : find_competitor competition.competitors "home"
        = .error (.missingSide "home") := by
      unfold find_competitor
      rw [List.find?_eq_none.mpr (by intro c hc2; simpa using hnone c hc2)]
    simp only [transform_game, hc, hfind]
  · intro hsome hnone
    have hfind : competition.competitors.find?
        (fun c => c.homeAway = some "away") = none :=
      List.find?_eq_none.mpr (by intro c hc2; simpa using hnone c hc2)
    have hissome : (competition.competitors.find?
        (fun c => c.homeAway = some "home")).isSome := by
      rw [List.find?_isSome]
      rcases hsome with ⟨c, hmem, hch⟩
      exact ⟨c, hmem, by simpa using hch⟩
    rcases Option.isSome_iff_exists.mp hissome with ⟨home_comp, hfh⟩
    have hfindh : find_competitor competition.competitors "home" = .ok home_comp := by
      unfold find_competitor
      rw [hfh]
    have hfinda : find_competitor competition.competitors "away"
        = .error (.missingSide "away") := by
      unfold find_competitor
      rw [hfind]
    simp only [transform_game, hc, hfindh, hfinda]

/-- C8 witness: a list with only an away competitor fails with the
missing-side error for "home"; a list with only a home competitor fails
with the missing-side error for "away". -/
theorem transform_game_missing_side_fails_witness :
    transform_game (event_with [comp_away_three]) empty_summary
      default_test_settings 0 = .error (.missingSide "home") ∧
    transform_game (event_with [comp_home_one]) empty_summary
      default_test_settings 0 = .error (.missingSide "away") :=
  ⟨(transform_game_missing_side_fails (event_with [comp_away_three])
      empty_summary default_test_settings 0 ⟨none, [comp_away_three]⟩ [] rfl).1
      (by decide),
   (transform_game_missing_side_fails (event_with [comp_home_one])
      empty_summary default_test_settings 0 ⟨none, [comp_home_one]⟩ [] rfl).2
      (by decide) (by decide)⟩

/-- C9: every key of the stats mapping of a successfully extracted side is
in the fixed whitelist `STAT_KEYS`; stat names outside the whitelist are
dropped silently, whatever the input statistics block contains. -/
theorem extract_team_stats_whitelisted (competitor : Competitor)
    (boxscore_teams : List BoxTeam) (td : TeamData)
    (h : extract_team competitor boxscore_teams = .ok td) :
    ∀ kv ∈ td.stats, kv.1 ∈ STAT_KEYS := by
  intro kv hkv
  have hstats : td.stats
      = filter_stats boxscore_teams (competitor.homeAway.getD "") := by
    simp only [extract_team] at h
    cases hp : py_int (competitor.score.getD "0") with
    | error e => rw [hp] at h; cases h
    | ok sc =>
      rw [hp] at h
      cases h
      rfl
  rw [hstats] at hkv
  exact filter_stats_whitelisted _ _ kv hkv

/-- C9 witness: a statistics block mixing the whitelisted name "totalYards"
with the unknown name "bogusStat" yields a stats mapping whose key is in
the whitelist (the unknown name is dropped). -/
theorem extract_team_stats_whitelisted_witness :
    ("totalYards", ("310" : String)).1 ∈ STAT_KEYS :=
  extract_team_stats_whitelisted competitor_home_kc box_teams_mixed
    { id := "12", name := "Kansas City Chiefs", score := 21,
      stats := [("totalYards", "310")] }
    (by decide) ("totalYards", "310") (by decide)

/-- C10: no poll cycle removes a key from the latest-payloads mapping —
every item id present before a cycle is still present after it, whether the
listing fetch fails, returns no live items, or triggers per-item
processing. -/
theorem do_poll_never_removes_keys (fetch_scoreboard : Except Unit Scoreboard)
    (fetch_summary : String → Except Unit Summary)
    (upsert : ToonPayload → Except Unit Unit)
    (settings : Settings) (now : Nat) (s : PollerState) (k : String)
    (h : k ∈ s.latestPayloads.map Prod.fst) :
    k ∈ (do_poll fetch_scoreboard fetch_summary upsert settings now
          s).latestPayloads.map Prod.fst := by
  cases fetch_scoreboard with
  | error e => simpa [do_poll] using h
  | ok scoreboard =>
    simp only [do_poll]
    by_cases he : (extract_live_game_ids settings scoreboard).isEmpty
    · simpa [he] using h
    · simp only [if_neg he]
      exact fold_process_keys_mono _ _ _ _ _ _ _ _ h

/-- C10 witness: a record for game "g" present before a failing cycle is
still present after it. -/
theorem do_poll_never_removes_keys_witness :
    "g" ∈ (do_poll (.error ()) summary_fetch_b_fails upsert_ok
        default_test_settings 0 ⟨2, [("g", payload_a)]⟩).latestPayloads.map
        Prod.fst :=
  do_poll_never_removes_keys (.error ()) summary_fetch_b_fails upsert_ok
    default_test_settings 0 ⟨2, [("g", payload_a)]⟩ "g" (by decide)

end SBLX
